import Mathlib

/-!
Recruiter Assistant: the client controller `static/js/app.js`.

A shallow embedding of the page controller.  The document is a record of the
properties the script reads or writes, every handler is a function on that
record, and a `fetch` is split into the synchronous part (the request is logged
and its continuation is parked in `pending`) and the completion part (the
callbacks of the promise chain, run when an outcome arrives).

Focus and scroll position are not part of the modelled state, and the events are
those of the listeners `initializeApp` installs: text written into the page is
taken not to bring handlers of its own.
-/

namespace RecruiterAssistant

/-! ## ECMAScript string helpers -/

/-- White space and line terminators, the code points `String.prototype.trim` strips. -/
def isJsWhitespace (c : Char) : Bool :=
  c.val = 0x09 || c.val = 0x0A || c.val = 0x0B || c.val = 0x0C || c.val = 0x0D ||
  c.val = 0x20 || c.val = 0xA0 || c.val = 0x1680 ||
  (0x2000 ≤ c.val && c.val ≤ 0x200A) ||
  c.val = 0x2028 || c.val = 0x2029 || c.val = 0x202F || c.val = 0x205F ||
  c.val = 0x3000 || c.val = 0xFEFF

/-- Strip leading and trailing white space from a list of characters. -/
def trimChars (cs : List Char) : List Char :=
  ((cs.dropWhile isJsWhitespace).reverse.dropWhile isJsWhitespace).reverse

/-- The method `s.trim()`. -/
def jsTrim (s : String) : String := ⟨trimChars s.data⟩

/-- Substring search on character lists. -/
def includesChars (hay needle : List Char) : Bool :=
  hay.tails.any (fun t => needle.isPrefixOf t)

/-- The method `s.includes(sub)`. -/
def jsIncludes (s sub : String) : Bool := includesChars s.data sub.data

/-- Truthiness of a string-valued property that may be absent: absent and `''` are falsy. -/
def truthy (v : Option String) : Bool :=
  match v with
  | some t => !(t == "")
  | none => false

/-- The expression `v || dflt` for a string-valued property that may be absent. -/
def orElse (v : Option String) (dflt : String) : String :=
  match v with
  | some t => if t == "" then dflt else t
  | none => dflt

/-- A possibly absent value interpolated into a template literal. -/
def interpolate (v : Option String) : String := v.getD "undefined"

/-! ## Data model -/

/-- The global `AppState`; `mode` is `none` when it holds `undefined`. -/
structure AppState where
  mode : Option String
  resumeUploaded : Bool
  jobDescriptionSet : Bool
  candidateName : String
deriving DecidableEq, Repr

/-- The object literal `AppState` is initialised with. -/
def AppState.initial : AppState :=
  { mode := some "job_seeker", resumeUploaded := false, jobDescriptionSet := false,
    candidateName := "Candidate" }

/-- A `File` as the script sees it: its name and declared MIME type. -/
structure File where
  name : String
  type : String
deriving DecidableEq, Repr

/-- An element child of `#chatMessages`. -/
structure Node where
  className : String
  id : String
  innerHTML : String
deriving DecidableEq, Repr

/-- A `.mode-option` element: its `data-mode` attribute (if any), whether it carries
the class `active`, and the `checked` flag of the input inside it. -/
structure ModeOption where
  dataMode : Option String
  active : Bool
  checked : Bool
deriving DecidableEq, Repr

/-- The four status containers `showStatus` is applied to. -/
inductive StatusElement
  | resumeStatus
  | coverLetterStatus
  | jobDescriptionStatus
  | overallStatus
deriving DecidableEq, Repr

/-- The two drop zones. -/
inductive UploadArea
  | resumeUpload
  | coverLetterUpload
deriving DecidableEq, Repr

/-- The two file inputs. -/
inductive FileInput
  | resumeFile
  | coverLetterFile
deriving DecidableEq, Repr

/-- The body of an outbound request. -/
inductive Body
  | empty
  | json (key : String) (value : Option String)
  | form (field : String) (file : File)
deriving DecidableEq, Repr

/-- A call of `fetch`. -/
structure Request where
  method : String
  url : String
  body : Body
deriving DecidableEq, Repr

/-- The fields of a parsed JSON response the script reads.  `success` is the
truthiness of `data.success`; an absent property is `none`. -/
structure Data where
  success : Bool := false
  candidate_name : Option String := none
  message : Option String := none
  error : Option String := none
  response : Option String := none
  ats_score : Option Int := none
  recommendations : Option (List String) := none
  strengths : Option (List String) := none
  weaknesses : Option (List String) := none
  keyword_matches : Option (List String) := none
  missing_keywords : Option (List String) := none
deriving DecidableEq, Repr

/-- How a request ends: `fetch` rejects, the body is not JSON, the body is the
JSON value `null` (reading a property of it throws), or a value with properties.
The string is `error.message` of whatever reaches the `catch` callback. -/
inductive Outcome
  | rejected (message : String)
  | notJson (message : String)
  | jsonNull (message : String)
  | json (data : Data)
deriving DecidableEq, Repr

/-- The continuation of an in-flight request, with the variables its callbacks close over. -/
inductive Pending
  | modeClearChat (modeText : String)
  | setMode
  | upload (statusElement : StatusElement) (endpoint : String)
  | jobDescription (jobDesc : String)
  | chat
  | atsAnalysis
  | clearChat
deriving DecidableEq, Repr

/-- What the script leaves to the browser and cannot be read off its text.
`htmlRemove markup id` is the markup left when the first element with that id,
in document order, is taken out of the elements the HTML parser makes of
`markup`, and `none` when there is no such element.  `cssSelect selector opts` is
the index of the first mode option `querySelector` returns for a selector whose
attribute value is not plain text, and `none` when it throws or finds none. -/
structure Browser where
  htmlRemove : String → String → Option String
  cssSelect : String → List ModeOption → Option Nat

/-- The part of the HTML document the script touches, as it is served, and the
browser it is served to.  Neither is part of the script, so both are parameters
of the model. -/
structure Markup where
  browser : Browser
  modeOptions : List ModeOption
  resumeDragover : Bool
  coverLetterDragover : Bool
  resumeFiles : List File
  coverLetterFiles : List File
  resumeStatus : String
  coverLetterStatus : String
  jobDescriptionStatus : String
  overallStatus : String
  jobDescriptionValue : String
  atsAnalysisBtnDisabled : Bool
  atsAnalysisBtnHtml : String
  chatMessages : List Node
  messageInputValue : String
  messageInputDisabled : Bool
  sendBtnDisabled : Bool
  chatTitle : String
  atsModalDisplay : String
  atsResults : String

/-- The page: `AppState`, the document, and the traffic with the outside
(alerts shown, console errors, requests issued, requests still in flight). -/
structure Page extends Markup where
  app : AppState
  alerts : List String
  consoleErrors : List String
  requests : List Request
  pending : List Pending

/-- The state when the script has been evaluated and `initializeApp` has run. -/
def pageLoad (m : Markup) : Page :=
  { toMarkup := m, app := AppState.initial, alerts := [], consoleErrors := [],
    requests := [], pending := [] }

/-- Issue a request: log it and park its continuation. -/
def fetch (s : Page) (r : Request) (k : Pending) : Page :=
  { s with requests := s.requests ++ [r], pending := s.pending ++ [k] }

/-! ## Utility functions -/

/-- The icon `showStatus` picks for a status type. -/
def iconClass (type : String) : String :=
  if type = "success" then "check-circle"
  else if type = "error" then "exclamation-circle"
  else if type = "warning" then "exclamation-triangle"
  else "info-circle"

/-- The markup `showStatus` writes into the element. -/
def statusHtml (message : String) (type : String) : String :=
  "\n        <div class=\"status-message status-" ++ type ++ "\">\n" ++
  "            <i class=\"fas fa-" ++ iconClass type ++ "\"></i>\n" ++
  "            " ++ message ++ "\n" ++
  "        </div>\n    "

/-- The function `showStatus(element, message, type)`. -/
def showStatus (s : Page) (element : StatusElement) (message : String)
    (type : String) : Page :=
  match element with
  | .resumeStatus => { s with resumeStatus := statusHtml message type }
  | .coverLetterStatus => { s with coverLetterStatus := statusHtml message type }
  | .jobDescriptionStatus => { s with jobDescriptionStatus := statusHtml message type }
  | .overallStatus => { s with overallStatus := statusHtml message type }

/-- The function `updateOverallStatus()`. -/
def updateOverallStatus (s : Page) : Page :=
  if s.app.resumeUploaded && s.app.jobDescriptionSet then
    let s := showStatus s .overallStatus
      "✅ Ready to chat! All documents uploaded successfully" "success"
    { s with messageInputDisabled := false, sendBtnDisabled := false,
             atsAnalysisBtnDisabled := false }
  else if s.app.resumeUploaded then
    showStatus s .overallStatus "⚠️ Almost ready! Please add job description" "warning"
  else
    showStatus s .overallStatus
      "📋 Please upload resume and job description to start" "warning"

/-- The node `addMessage(content, isUser)` creates. -/
def messageNode (content : String) (isUser : Bool) : Node :=
  { className := "message " ++ (if isUser then "message-user" else "message-ai"),
    id := "",
    innerHTML := if isUser then content else "<strong>AI:</strong> " ++ content }

/-- The function `addMessage(content, isUser)`. -/
def addMessage (s : Page) (content : String) (isUser : Bool) : Page :=
  { s with chatMessages := s.chatMessages ++ [messageNode content isUser] }

/-- The placeholder `showLoading()` creates. -/
def loadingNode : Node :=
  { className := "message message-ai loading",
    id := "loadingMessage",
    innerHTML := "<strong>AI:</strong> <i class=\"fas fa-spinner fa-spin\"></i> Thinking..." }

/-- The function `showLoading()`. -/
def showLoading (s : Page) : Page :=
  { s with chatMessages := s.chatMessages ++ [loadingNode] }

/-- Remove the first element with the given id, as `getElementById(id)` followed
by `remove()` does on the transcript.  The search is in document order: a node
comes before the elements parsed from its own `innerHTML`, and those before the
next node; an element found inside a node is taken out of that node.  Markup the
script writes outside the transcript is not searched. -/
def removeById (b : Browser) (id : String) : List Node → List Node
  | [] => []
  | n :: rest =>
    if n.id = id then rest
    else
      match b.htmlRemove n.innerHTML id with
      | some left => { n with innerHTML := left } :: rest
      | none => n :: removeById b id rest

/-- The function `hideLoading()`. -/
def hideLoading (s : Page) : Page :=
  { s with chatMessages := removeById s.browser "loadingMessage" s.chatMessages }

/-! ## Event handlers -/

/-- The text `handleModeChange` derives from the selected mode. -/
def modeText (selectedMode : Option String) : String :=
  if selectedMode = some "job_seeker" then "Job Seeker Mode - AI will interview you"
  else "HR Recruiter Mode - AI acts as candidate"

/-- A character that stands for itself inside a double-quoted CSS string: not a
quote, a backslash, a line break or the null character. -/
def plainChar (c : Char) : Bool :=
  !(c.val = 0x22 || c.val = 0x5C || c.val = 0x0A || c.val = 0x0D || c.val = 0x0C ||
    c.val = 0x00)

/-- The value can be put between double quotes in a selector as it is. -/
def plainValue (v : String) : Bool := v.data.all plainChar

/-- Index of the first element `querySelector` returns for the selector built by
interpolating the selected mode, `none` when it throws or returns `null`.  For a
plain value the selector matches the elements whose `data-mode` is that value;
otherwise what the selector text means is left to the browser.  The mode options
are taken to be the only elements with a `data-mode` attribute. -/
def querySelectorDataMode (b : Browser) (opts : List ModeOption)
    (selectedMode : Option String) : Option Nat :=
  if plainValue (interpolate selectedMode) then
    let i := opts.findIdx (fun o => o.dataMode == some (interpolate selectedMode))
    if i < opts.length then some i else none
  else
    match b.cssSelect ("[data-mode=\"" ++ interpolate selectedMode ++ "\"]") opts with
    | some i => if i < opts.length then some i else none
    | none => none

/-- The transcript the callback of the clear-chat request of a mode switch installs. -/
def modeSwitchedNode (text : String) (app : AppState) : Node :=
  { className := "message message-ai",
    id := "",
    innerHTML :=
      "\n                    <strong>AI Assistant:</strong> Mode switched to " ++ text ++ "! " ++
      (if app.resumeUploaded && app.jobDescriptionSet then "Let\x27s start the interview!"
       else "Please ensure resume and job description are uploaded.") ++
      "\n                " }

/-- The synchronous part of `handleModeChange(selectedMode)`.  When the selector
is refused or no element matches it the handler throws, at `querySelector` or at
`selectedOption.classList`, and what it did up to there stays. -/
def handleModeChange (s : Page) (selectedMode : Option String) : Page :=
  let s := { s with app := { s.app with mode := selectedMode } }
  let s := { s with modeOptions :=
    s.modeOptions.map (fun o => { o with active := false, checked := false }) }
  match querySelectorDataMode s.browser s.modeOptions selectedMode with
  | none => s
  | some i =>
    let s := { s with modeOptions :=
      s.modeOptions.modify (fun o => { o with active := true, checked := true }) i }
    let s := { s with chatTitle :=
      "<i class=\"fas fa-comments\"></i> " ++ modeText selectedMode }
    let s := fetch s { method := "POST", url := "/api/clear-chat", body := .empty }
      (.modeClearChat (modeText selectedMode))
    fetch s { method := "POST", url := "/api/set-mode", body := .json "mode" selectedMode }
      .setMode

/-- The `then` callback of the clear-chat request of a mode switch; a rejected
request has no callback. -/
def modeClearChatResponse (s : Page) (text : String) (o : Outcome) : Page :=
  match o with
  | .rejected _ => s
  | _ => { s with chatMessages := [modeSwitchedNode text s.app] }

/-- The function `handleFileUpload(file, statusElement, endpoint, isRequired)`,
synchronous part. -/
def handleFileUpload (s : Page) (file : File) (statusElement : StatusElement)
    (endpoint : String) (_isRequired : Bool) : Page :=
  let s := showStatus s statusElement "📤 Uploading..." "info"
  fetch s
    { method := "POST", url := "/api/" ++ endpoint,
      body := .form (if jsIncludes endpoint "resume" then "resume" else "cover_letter") file }
    (.upload statusElement endpoint)

/-- The callbacks of the upload request. -/
def uploadResponse (s : Page) (statusElement : StatusElement) (endpoint : String)
    (o : Outcome) : Page :=
  match o with
  | .json data =>
    if data.success then
      let s :=
        if jsIncludes endpoint "resume" then
          let s := { s with app := { s.app with resumeUploaded := true } }
          let s := { s with app :=
            { s.app with candidateName := orElse data.candidate_name "Candidate" } }
          showStatus s statusElement
            ("✅ Resume uploaded! Detected name: " ++ s.app.candidateName) "success"
        else
          showStatus s statusElement ("✅ " ++ interpolate data.message) "success"
      updateOverallStatus s
    else
      showStatus s statusElement ("❌ " ++ interpolate data.error) "error"
  | .rejected m | .notJson m | .jsonNull m =>
    showStatus s statusElement ("❌ Upload failed: " ++ m) "error"

/-- Write the `dragover` class flag of a drop zone. -/
def setDragover (s : Page) (uploadArea : UploadArea) (b : Bool) : Page :=
  match uploadArea with
  | .resumeUpload => { s with resumeDragover := b }
  | .coverLetterUpload => { s with coverLetterDragover := b }

/-- Write the `files` property of a file input. -/
def setFiles (s : Page) (fileInput : FileInput) (files : List File) : Page :=
  match fileInput with
  | .resumeFile => { s with resumeFiles := files }
  | .coverLetterFile => { s with coverLetterFiles := files }

/-- The `dragover` listener `setupFileUpload` installs. -/
def dragoverListener (s : Page) (uploadArea : UploadArea) : Page :=
  setDragover s uploadArea true

/-- The `dragleave` listener `setupFileUpload` installs. -/
def dragleaveListener (s : Page) (uploadArea : UploadArea) : Page :=
  setDragover s uploadArea false

/-- The `drop` listener `setupFileUpload` installs; `files` is `e.dataTransfer.files`. -/
def dropListener (s : Page) (uploadArea : UploadArea) (fileInput : FileInput)
    (statusElement : StatusElement) (endpoint : String) (isRequired : Bool)
    (files : List File) : Page :=
  let s := setDragover s uploadArea false
  match files with
  | [] => s
  | f :: _ =>
    if f.type = "application/pdf" then
      let s := setFiles s fileInput files
      handleFileUpload s f statusElement endpoint isRequired
    else
      showStatus s statusElement "❌ Please upload PDF files only" "error"

/-- The `change` listener `setupFileUpload` installs; `files` is `e.target.files`. -/
def changeListener (s : Page) (fileInput : FileInput) (statusElement : StatusElement)
    (endpoint : String) (isRequired : Bool) (files : List File) : Page :=
  let s := setFiles s fileInput files
  match files with
  | [] => s
  | f :: _ => handleFileUpload s f statusElement endpoint isRequired

/-- The function `handleJobDescriptionChange()`, synchronous part. -/
def handleJobDescriptionChange (s : Page) : Page :=
  let jobDesc := jsTrim s.jobDescriptionValue
  fetch s
    { method := "POST", url := "/api/job-description",
      body := .json "job_description" (some jobDesc) }
    (.jobDescription jobDesc)

/-- The callbacks of the job-description request; `jobDesc` is the text captured
when the request was made. -/
def jobDescriptionResponse (s : Page) (jobDesc : String) (o : Outcome) : Page :=
  match o with
  | .json data =>
    if data.success then
      let s := { s with app := { s.app with jobDescriptionSet := decide (jobDesc.length > 0) } }
      let s := showStatus s .jobDescriptionStatus
        (if jobDesc.length > 0 then "✅ Job description updated!"
         else "⚠️ Job description cleared")
        (if jobDesc.length > 0 then "success" else "warning")
      updateOverallStatus s
    else s
  | .rejected m | .notJson m | .jsonNull m =>
    showStatus s .jobDescriptionStatus ("❌ Error: " ++ m) "error"

/-- The function `sendMessage()`, synchronous part. -/
def sendMessage (s : Page) : Page :=
  let message := jsTrim s.messageInputValue
  if message = "" then s
  else
    let s := { s with messageInputDisabled := true }
    let s := { s with sendBtnDisabled := true }
    let s := addMessage s message true
    let s := { s with messageInputValue := "" }
    let s := showLoading s
    fetch s { method := "POST", url := "/api/chat", body := .json "message" (some message) }
      .chat

/-- The `catch` callback of the chat request. -/
def chatCatch (s : Page) (m : String) : Page :=
  let s := hideLoading s
  addMessage s ("❌ Error: " ++ m) false

/-- The callbacks of the chat request: `then`, `catch`, `finally`. -/
def chatResponse (s : Page) (o : Outcome) : Page :=
  let s :=
    match o with
    | .json data =>
      let s := hideLoading s
      if truthy data.response then addMessage s (interpolate data.response) false
      else addMessage s ("❌ " ++ orElse data.error "Unknown error occurred") false
    | .jsonNull m => chatCatch (hideLoading s) m
    | .rejected m | .notJson m => chatCatch s m
  { s with messageInputDisabled := false, sendBtnDisabled := false }

/-- The function `performATSAnalysis()`, synchronous part. -/
def performATSAnalysis (s : Page) : Page :=
  let s := { s with atsAnalysisBtnDisabled := true }
  let s := { s with atsAnalysisBtnHtml :=
    "<i class=\"fas fa-spinner fa-spin\"></i> Analyzing..." }
  fetch s { method := "GET", url := "/api/ats-analysis", body := .empty } .atsAnalysis

/-- The local `score` of `displayATSResults`: `data.ats_score || 0`. -/
def atsScore (data : Data) : Int :=
  match data.ats_score with
  | some n => if n = 0 then 0 else n
  | none => 0

/-- The local `scoreClass` of `displayATSResults`. -/
def scoreClass (data : Data) : String :=
  let score := atsScore data
  if score ≥ 80 then "score-excellent"
  else if score ≥ 60 then "score-good"
  else "score-needs-improvement"

/-- The markup `displayATSResults(data)` writes into `#atsResults`. -/
def atsResultsHtml (data : Data) : String :=
  "\n" ++
  "        <div class=\"ats-score\">\n" ++
  "            <div class=\"score-circle " ++ scoreClass data ++ "\">\n" ++
  "                " ++ toString (atsScore data) ++ "/100\n" ++
  "            </div>\n" ++
  "            <h3>ATS Compatibility Score</h3>\n" ++
  "        </div>\n" ++
  "\n" ++
  "        <div class=\"ats-results\">\n" ++
  "            <h4><i class=\"fas fa-lightbulb\"></i> Recommendations</h4>\n" ++
  "            <ul>\n" ++
  "                " ++
  String.join ((data.recommendations.getD ["No recommendations available"]).map
    (fun rec => "<li>" ++ rec ++ "</li>")) ++
  "\n" ++
  "            </ul>\n" ++
  "\n" ++
  "            <h4><i class=\"fas fa-check-circle\" style=\"color: var(--success);\"></i>" ++
  " Strengths</h4>\n" ++
  "            <ul>\n" ++
  "                " ++
  String.join ((data.strengths.getD ["Analysis completed"]).map
    (fun strength => "<li>" ++ strength ++ "</li>")) ++
  "\n" ++
  "            </ul>\n" ++
  "\n" ++
  "            <h4><i class=\"fas fa-exclamation-triangle\" style=\"color: var(--warning);\">" ++
  "</i> Areas for Improvement</h4>\n" ++
  "            <ul>\n" ++
  "                " ++
  String.join ((data.weaknesses.getD ["See recommendations above"]).map
    (fun weakness => "<li>" ++ weakness ++ "</li>")) ++
  "\n" ++
  "            </ul>\n" ++
  "\n" ++
  "            <div class=\"keyword-grid\">\n" ++
  "                <div>\n" ++
  "                    <h4><i class=\"fas fa-tags\" style=\"color: var(--success);\"></i>" ++
  " Matching Keywords</h4>\n" ++
  "                    <div class=\"keyword-tags\">\n" ++
  "                        " ++
  String.join ((data.keyword_matches.getD ["Analysis completed"]).map
    (fun keyword => "<span class=\"keyword-tag match\">" ++ keyword ++ "</span>")) ++
  "\n" ++
  "                    </div>\n" ++
  "                </div>\n" ++
  "                <div>\n" ++
  "                    <h4><i class=\"fas fa-times-circle\" style=\"color: var(--danger);\">" ++
  "</i> Missing Keywords</h4>\n" ++
  "                    <div class=\"keyword-tags\">\n" ++
  "                        " ++
  String.join ((data.missing_keywords.getD ["See analysis above"]).map
    (fun keyword => "<span class=\"keyword-tag missing\">" ++ keyword ++ "</span>")) ++
  "\n" ++
  "                    </div>\n" ++
  "                </div>\n" ++
  "            </div>\n" ++
  "        </div>\n" ++
  "    "

/-- The function `displayATSResults(data)`. -/
def displayATSResults (s : Page) (data : Data) : Page :=
  { s with atsResults := atsResultsHtml data }

/-- The function `alert(message)`. -/
def alert (s : Page) (message : String) : Page :=
  { s with alerts := s.alerts ++ [message] }

/-- The callbacks of the analysis request: `then`, `catch`, `finally`. -/
def atsResponse (s : Page) (o : Outcome) : Page :=
  let s :=
    match o with
    | .json data =>
      if truthy data.error then alert s ("❌ " ++ interpolate data.error)
      else
        let s := displayATSResults s data
        { s with atsModalDisplay := "block" }
    | .rejected m | .notJson m | .jsonNull m => alert s ("❌ Analysis failed: " ++ m)
  let s := { s with atsAnalysisBtnDisabled := false }
  { s with atsAnalysisBtnHtml := "<i class=\"fas fa-chart-line\"></i> ATS Analysis" }

/-- The function `clearChat()`, synchronous part. -/
def clearChat (s : Page) : Page :=
  fetch s { method := "POST", url := "/api/clear-chat", body := .empty } .clearChat

/-- The node the callback of `clearChat` installs. -/
def chatClearedNode : Node :=
  { className := "message message-ai",
    id := "",
    innerHTML :=
      "\n                <strong>AI Assistant:</strong> Chat cleared! " ++
      "Feel free to start a new conversation.\n            " }

/-- The callbacks of the request of `clearChat`: `then` and `catch`. -/
def clearChatResponse (s : Page) (o : Outcome) : Page :=
  match o with
  | .rejected m => { s with consoleErrors := s.consoleErrors ++ ["Error clearing chat: " ++ m] }
  | _ => { s with chatMessages := [chatClearedNode] }

/-- Run the callbacks of a request on its outcome. -/
def complete (s : Page) (k : Pending) (o : Outcome) : Page :=
  match k with
  | .modeClearChat text => modeClearChatResponse s text o
  | .setMode => s
  | .upload statusElement endpoint => uploadResponse s statusElement endpoint o
  | .jobDescription jobDesc => jobDescriptionResponse s jobDesc o
  | .chat => chatResponse s o
  | .atsAnalysis => atsResponse s o
  | .clearChat => clearChatResponse s o

/-- The outcome of the `i`-th request in flight arrives. -/
def respond (s : Page) (i : Nat) (o : Outcome) : Page :=
  match s.pending[i]? with
  | some k => complete { s with pending := s.pending.eraseIdx i } k o
  | none => s

/-! ## Debounce and the event loop -/

/-- The closure of `debounce(func, wait)`: `timeout` is the armed timer, with the
time it is due and the arguments its callback `later` closes over. -/
structure Debounced (α : Type) where
  wait : Nat
  timeout : Option (Nat × α)
deriving DecidableEq, Repr

/-- The closure `debounce(func, wait)` returns, before its first call. -/
def debounce {α : Type} (wait : Nat) : Debounced α :=
  { wait := wait, timeout := none }

/-- The function `executedFunction(...args)` at time `now`: the armed timer is
cleared and a new one set, due `wait` later. -/
def Debounced.executedFunction {α : Type} (d : Debounced α) (now : Nat) (args : α) :
    Debounced α :=
  { d with timeout := some (now + d.wait, args) }

/-- A debounced function in its world: the closure, the state `func` acts on, and
the record of the invocations of `func` (when, with what arguments). -/
structure World (α σ : Type) where
  debounced : Debounced α
  state : σ
  invoked : List (Nat × α)

/-- Let time pass up to `now`: a timer that is due runs `later`, which calls `func`. -/
def World.advance {α σ : Type} (func : α → σ → σ) (now : Nat) (w : World α σ) :
    World α σ :=
  match w.debounced.timeout with
  | some (due, args) =>
    if due ≤ now then
      { debounced := { w.debounced with timeout := none },
        state := func args w.state,
        invoked := w.invoked ++ [(due, args)] }
    else w
  | none => w

/-- A call of the debounced function at a given time; `pre` is what happened to the
state just before the call (the edit that raised the event). -/
structure Call (α σ : Type) where
  time : Nat
  pre : σ → σ
  args : α

/-- Process one call of the debounced function. -/
def World.call {α σ : Type} (func : α → σ → σ) (w : World α σ) (c : Call α σ) :
    World α σ :=
  let w := w.advance func c.time
  { w with state := c.pre w.state,
           debounced := w.debounced.executedFunction c.time c.args }

/-- Process a sequence of calls, then let time pass up to `stop`. -/
def World.run {α σ : Type} (func : α → σ → σ) (w : World α σ) (cs : List (Call α σ))
    (stop : Nat) : World α σ :=
  (cs.foldl (World.call func) w).advance func stop

/-- What the user and the network can do to the page. -/
inductive Event
  | modeOptionClick (i : Nat)
  | dragover (uploadArea : UploadArea)
  | dragleave (uploadArea : UploadArea)
  | drop (uploadArea : UploadArea) (files : List File)
  | fileChange (fileInput : FileInput) (files : List File)
  | jobDescriptionInput (value : String)
  | messageInput (value : String)
  | sendBtnClick
  | messageKeypress (key : String) (shiftKey : Bool)
  | atsAnalysisBtnClick
  | clearChatBtnClick
  | closeModalClick
  | windowClick (onModal : Bool)
  | response (i : Nat) (o : Outcome)
deriving DecidableEq, Repr

/-- The listeners `initializeApp` installs, except the debounced one.  A disabled
control raises no click or key event and takes no input. -/
def handle (s : Page) (e : Event) : Page :=
  match e with
  | .modeOptionClick i =>
    match s.modeOptions[i]? with
    | some option => handleModeChange s option.dataMode
    | none => s
  | .dragover uploadArea => dragoverListener s uploadArea
  | .dragleave uploadArea => dragleaveListener s uploadArea
  | .drop .resumeUpload files =>
    dropListener s .resumeUpload .resumeFile .resumeStatus "upload-resume" true files
  | .drop .coverLetterUpload files =>
    dropListener s .coverLetterUpload .coverLetterFile .coverLetterStatus
      "upload-cover-letter" false files
  | .fileChange .resumeFile files =>
    changeListener s .resumeFile .resumeStatus "upload-resume" true files
  | .fileChange .coverLetterFile files =>
    changeListener s .coverLetterFile .coverLetterStatus "upload-cover-letter" false files
  | .jobDescriptionInput value => { s with jobDescriptionValue := value }
  | .messageInput value =>
    if s.messageInputDisabled then s else { s with messageInputValue := value }
  | .sendBtnClick => if s.sendBtnDisabled then s else sendMessage s
  | .messageKeypress key shiftKey =>
    if s.messageInputDisabled then s
    else if key = "Enter" && !shiftKey then sendMessage s
    else s
  | .atsAnalysisBtnClick => if s.atsAnalysisBtnDisabled then s else performATSAnalysis s
  | .clearChatBtnClick => clearChat s
  | .closeModalClick => { s with atsModalDisplay := "none" }
  | .windowClick onModal => if onModal then { s with atsModalDisplay := "none" } else s
  | .response i o => respond s i o

/-- The running application: the page and the debounced job-description listener. -/
abbrev App := World Unit Page

/-- The function the job-description listener debounces. -/
def jobDescriptionListener : Unit → Page → Page := fun _ s => handleJobDescriptionChange s

/-- The application when the document has loaded: the listener is
`debounce(handleJobDescriptionChange, 1000)`. -/
def App.load (m : Markup) : App :=
  { debounced := debounce 1000, state := pageLoad m, invoked := [] }

/-- One event at a given time: timers that are due run first. -/
def App.step (w : App) (te : Nat × Event) : App :=
  match te.2 with
  | .jobDescriptionInput value =>
    w.call jobDescriptionListener
      { time := te.1, pre := fun s => handle s (.jobDescriptionInput value), args := () }
  | e =>
    let w := w.advance jobDescriptionListener te.1
    { w with state := handle w.state e }

/-- A sequence of timed events. -/
def App.run (w : App) (es : List (Nat × Event)) : App :=
  es.foldl App.step w

/-! ## Concrete inputs -/

/-- The `innerHTML` of a status container. -/
def statusOf (s : Page) (element : StatusElement) : String :=
  match element with
  | .resumeStatus => s.resumeStatus
  | .coverLetterStatus => s.coverLetterStatus
  | .jobDescriptionStatus => s.jobDescriptionStatus
  | .overallStatus => s.overallStatus

/-- The browser of the concrete runs.  Their texts hold no element with an id and
their modes are plain, so `none` is what a browser answers wherever it is asked. -/
def exampleBrowser : Browser :=
  { htmlRemove := fun _ _ => none, cssSelect := fun _ _ => none }

/-- A document for concrete runs: one option per mode, the job-seeker one selected,
empty status containers and transcript, the three dependent controls disabled. -/
def exampleMarkup : Markup :=
  { browser := exampleBrowser,
    modeOptions :=
      [ { dataMode := some "job_seeker", active := true, checked := true },
        { dataMode := some "hr_recruiter", active := false, checked := false } ],
    resumeDragover := false,
    coverLetterDragover := false,
    resumeFiles := [],
    coverLetterFiles := [],
    resumeStatus := "",
    coverLetterStatus := "",
    jobDescriptionStatus := "",
    overallStatus := "",
    jobDescriptionValue := "",
    atsAnalysisBtnDisabled := true,
    atsAnalysisBtnHtml := "<i class=\"fas fa-chart-line\"></i> ATS Analysis",
    chatMessages := [],
    messageInputValue := "",
    messageInputDisabled := true,
    sendBtnDisabled := true,
    chatTitle := "<i class=\"fas fa-comments\"></i> Job Seeker Mode - AI will interview you",
    atsModalDisplay := "none",
    atsResults := "" }

/-- A PDF file. -/
def resumePdf : File := { name := "resume.pdf", type := "application/pdf" }

/-- A file that is not a PDF. -/
def notesTxt : File := { name := "notes.txt", type := "text/plain" }

/-- A response `{success: true}`. -/
def okData : Data := { success := true }

/-- Events that make the page ready: a resume is dropped and accepted, a job
description is typed and accepted. -/
def readyTrace : List (Nat × Event) :=
  [ (0, .drop .resumeUpload [resumePdf]),
    (100, .response 0 (.json { success := true, candidate_name := some "Jane Doe" })),
    (200, .jobDescriptionInput "Engineer"),
    (1300, .response 0 (.json okData)) ]

/-- Get ready, then clear the job description; the server accepts the empty text. -/
def clearedJobDescriptionTrace : List (Nat × Event) :=
  readyTrace ++
  [ (2000, .jobDescriptionInput ""),
    (3100, .response 0 (.json okData)) ]

/-- Get ready and send a message; while its request is in flight the job
description is edited and accepted, and a second message is sent. -/
def overlappingSendsTrace : List (Nat × Event) :=
  readyTrace ++
  [ (1400, .messageInput "Hi"),
    (1500, .sendBtnClick),
    (1600, .jobDescriptionInput "Senior engineer"),
    (2700, .response 1 (.json okData)),
    (2800, .messageInput "Hello?") ]

/-- Get ready, exchange one message with the assistant. -/
def chattedTrace : List (Nat × Event) :=
  readyTrace ++
  [ (1400, .messageInput "Hi"),
    (1500, .sendBtnClick),
    (1600, .response 0 (.json { response := some "Welcome" })) ]

/-- Three edits of the job description, each less than a second after the one before. -/
def typingCalls : List (Call Unit Page) :=
  [ { time := 0, pre := fun s => handle s (.jobDescriptionInput "a"), args := () },
    { time := 400, pre := fun s => handle s (.jobDescriptionInput "ab"), args := () },
    { time := 900, pre := fun s => handle s (.jobDescriptionInput "abc"), args := () } ]

/-! ## Predicates of the statements -/

/-- The two variants of the mode. -/
def validMode (mode : Option String) : Prop :=
  mode = some "job_seeker" ∨ mode = some "hr_recruiter"

/-- Each call comes no earlier than the one before and less than `wait` after it. -/
def closeCalls {α σ : Type} (wait : Nat) : List (Call α σ) → Prop
  | [] => True
  | [_] => True
  | a :: b :: rest => a.time ≤ b.time ∧ b.time < a.time + wait ∧ closeCalls wait (b :: rest)

/-- The edits of a sequence of calls, applied in order. -/
def applyPres {α σ : Type} (cs : List (Call α σ)) (x : σ) : σ :=
  cs.foldl (fun y c => c.pre y) x

/-- The loaded page with blanks, a tab and a line feed in the message input. -/
def blankInputPage : Page :=
  { (pageLoad exampleMarkup) with messageInputValue := "  \t \n" }

/-- A job description is typed and submitted; the server answers `{success: false}`. -/
def refusedTrace : List (Nat × Event) :=
  [ (0, .jobDescriptionInput "Engineer"),
    (1100, .response 0 (.json { success := false })) ]

/-- After one exchange with the assistant the second mode option is clicked. -/
def modeSwitchTrace : List (Nat × Event) :=
  chattedTrace ++ [ (1700, .modeOptionClick 1) ]

/-- After the mode switch its clear-chat request is answered. -/
def answeredModeSwitchTrace : List (Nat × Event) :=
  modeSwitchTrace ++ [ (1800, .response 0 (.json okData)) ]

/-- After the mode switch both of its requests fail. -/
def failedModeSwitchTrace : List (Nat × Event) :=
  modeSwitchTrace ++
  [ (1800, .response 0 (.rejected "Failed to fetch")),
    (1900, .response 0 (.rejected "Failed to fetch")) ]

/-- The second message of `overlappingSendsTrace` is sent and answered first. -/
def secondSendTrace : List (Nat × Event) :=
  [ (2900, .sendBtnClick),
    (3000, .response 1 (.json { response := some "Welcome" })) ]

/-- The value is `job_seeker`, as at load, or the `data-mode` of a mode option of
the document. -/
def servedMode (m : Markup) (mode : Option String) : Prop :=
  mode = some "job_seeker" ∨ ∃ o ∈ m.modeOptions, mode = o.dataMode

/-- The mode satisfies `P` and so does the `data-mode` of every mode option. -/
def ModeInv (P : Option String → Prop) (s : Page) : Prop :=
  P s.app.mode ∧ ∀ o ∈ s.modeOptions, P o.dataMode

/-- A document with two more mode options: one without a `data-mode` attribute and
one whose `data-mode` is `admin`. -/
def strayOptionsMarkup : Markup :=
  { exampleMarkup with
    modeOptions := exampleMarkup.modeOptions ++
      [ { dataMode := none, active := false, checked := false },
        { dataMode := some "admin", active := false, checked := false } ] }

/-- Events of every kind, among them clicks on both mode options and on one that
does not exist. -/
def busyTrace : List (Nat × Event) :=
  chattedTrace ++
  [ (1700, .modeOptionClick 1),
    (1800, .response 0 (.json okData)),
    (1900, .response 0 (.rejected "Failed to fetch")),
    (2000, .modeOptionClick 7),
    (2100, .atsAnalysisBtnClick),
    (2200, .response 0 (.json { ats_score := some 45 })),
    (2300, .clearChatBtnClick),
    (2400, .modeOptionClick 0) ]

/-! ## Helper lemmas -/

theorem trimChars_blank (cs : List Char) (h : ∀ c ∈ cs, isJsWhitespace c = true) :
    trimChars cs = [] := by
  have h1 : cs.dropWhile isJsWhitespace = [] := List.dropWhile_eq_nil_iff.mpr h
  simp [trimChars, h1]

theorem length_pos_iff_ne_empty (t : String) : decide (t.length > 0) = !(t == "") := by
  cases t with
  | mk data =>
    cases data with
    | nil => rfl
    | cons c cs => simp [String.length, String.ext_iff]

/-! ## Readiness, score tiers, blank messages, dropped files -/

set_option maxRecDepth 100000 in
/-- C2: `updateOverallStatus` writes into the overall status the markup fixed by
the two readiness flags alone: the ready message with type success for
(true, true), the almost-ready message with type warning for (true, false), and
the upload-both message with type warning when no resume is uploaded, whatever
the job-description flag. -/
theorem updateOverallStatus_table (s : Page) :
    (updateOverallStatus s).overallStatus =
      (match s.app.resumeUploaded, s.app.jobDescriptionSet with
       | true, true =>
         "\n        <div class=\"status-message status-success\">\n" ++
         "            <i class=\"fas fa-check-circle\"></i>\n" ++
         "            ✅ Ready to chat! All documents uploaded successfully\n" ++
         "        </div>\n    "
       | true, false =>
         "\n        <div class=\"status-message status-warning\">\n" ++
         "            <i class=\"fas fa-exclamation-triangle\"></i>\n" ++
         "            ⚠️ Almost ready! Please add job description\n" ++
         "        </div>\n    "
       | false, _ =>
         "\n        <div class=\"status-message status-warning\">\n" ++
         "            <i class=\"fas fa-exclamation-triangle\"></i>\n" ++
         "            📋 Please upload resume and job description to start\n" ++
         "        </div>\n    ") := by
  have hready : statusHtml "✅ Ready to chat! All documents uploaded successfully" "success" =
         "\n        <div class=\"status-message status-success\">\n" ++
         "            <i class=\"fas fa-check-circle\"></i>\n" ++
         "            ✅ Ready to chat! All documents uploaded successfully\n" ++
         "        </div>\n    " := by decide
  have halmost : statusHtml "⚠️ Almost ready! Please add job description" "warning" =
         "\n        <div class=\"status-message status-warning\">\n" ++
         "            <i class=\"fas fa-exclamation-triangle\"></i>\n" ++
         "            ⚠️ Almost ready! Please add job description\n" ++
         "        </div>\n    " := by decide
  have hboth : statusHtml "📋 Please upload resume and job description to start" "warning" =
         "\n        <div class=\"status-message status-warning\">\n" ++
         "            <i class=\"fas fa-exclamation-triangle\"></i>\n" ++
         "            📋 Please upload resume and job description to start\n" ++
         "        </div>\n    " := by decide
  unfold updateOverallStatus
  cases hr : s.app.resumeUploaded <;> cases hj : s.app.jobDescriptionSet <;>
    simp only [showStatus, Bool.and_self, Bool.and_true, Bool.and_false, Bool.false_eq_true,
      if_true, if_false]
  · exact hboth
  · exact hboth
  · exact halmost
  · exact hready

/-- C6: `displayATSResults` picks the score class from the score alone, a missing
score counting as 0: excellent from 80 up, good from 60 to below 80, needs
improvement below 60; the class is the one written into the score circle.  So 45
and a missing score give needs improvement, 80 excellent and 60 good. -/
theorem scoreClass_tiers (s : Page) (data : Data) :
    (80 ≤ data.ats_score.getD 0 → scoreClass data = "score-excellent") ∧
    (60 ≤ data.ats_score.getD 0 ∧ data.ats_score.getD 0 < 80 →
      scoreClass data = "score-good") ∧
    (data.ats_score.getD 0 < 60 → scoreClass data = "score-needs-improvement") ∧
    (∃ rest, (displayATSResults s data).atsResults =
      "\n" ++ "        <div class=\"ats-score\">\n" ++
        "            <div class=\"score-circle " ++ scoreClass data ++ rest) ∧
    scoreClass { ats_score := some 45 } = "score-needs-improvement" ∧
    scoreClass { } = "score-needs-improvement" ∧
    scoreClass { ats_score := some 80 } = "score-excellent" ∧
    scoreClass { ats_score := some 60 } = "score-good" := by
  have hscore : atsScore data = data.ats_score.getD 0 := by
    unfold atsScore
    cases h : data.ats_score with
    | none => rfl
    | some n => by_cases hn : n = 0 <;> simp [hn]
  refine ⟨?_, ?_, ?_, ?_, by decide, by decide, by decide, by decide⟩
  · intro h
    simp only [scoreClass, hscore]
    rw [if_pos h]
  · intro h
    simp only [scoreClass, hscore]
    rw [if_neg (by omega), if_pos h.1]
  · intro h
    simp only [scoreClass, hscore]
    rw [if_neg (by omega), if_neg (by omega)]
  · constructor
    simp only [displayATSResults, atsResultsHtml, String.append_assoc]
    rfl

/-- C8: when the message input is empty or holds only white space, `sendMessage`
returns the page as it was: `AppState`, the disabled flags, the value of the
input, the transcript, the requests issued and the requests in flight. -/
theorem sendMessage_blank (s : Page)
    (h : ∀ c ∈ s.messageInputValue.data, isJsWhitespace c = true) :
    sendMessage s = s := by
  have ht : jsTrim s.messageInputValue = "" := by
    unfold jsTrim
    rw [trimChars_blank _ h]
  simp [sendMessage, ht]

/-- Witness of C8: an input of blanks, a tab and a line feed. -/
theorem sendMessage_blank_witness :
    sendMessage blankInputPage = blankInputPage :=
  sendMessage_blank _ (by decide)

set_option maxRecDepth 100000 in
/-- C5: a drop whose first file is not declared `application/pdf` issues no
request, parks no continuation and leaves `AppState` alone, and when there is a
first file the status of the zone becomes the PDF-only error; a drop whose first
file is declared `application/pdf` issues the upload request for that file. -/
theorem drop_non_pdf (s : Page) (uploadArea : UploadArea) (fileInput : FileInput)
    (statusElement : StatusElement) (endpoint : String) (isRequired : Bool)
    (files : List File) (h : ∀ f ∈ files.head?, f.type ≠ "application/pdf") :
    (dropListener s uploadArea fileInput statusElement endpoint isRequired files).requests
      = s.requests ∧
    (dropListener s uploadArea fileInput statusElement endpoint isRequired files).pending
      = s.pending ∧
    (dropListener s uploadArea fileInput statusElement endpoint isRequired files).app
      = s.app ∧
    (files ≠ [] →
      statusOf (dropListener s uploadArea fileInput statusElement endpoint isRequired files)
        statusElement =
        "\n        <div class=\"status-message status-error\">\n" ++
        "            <i class=\"fas fa-exclamation-circle\"></i>\n" ++
        "            ❌ Please upload PDF files only\n" ++
        "        </div>\n    ") ∧
    (∀ (f : File) (rest : List File), f.type = "application/pdf" →
      (dropListener s uploadArea fileInput statusElement endpoint isRequired
        (f :: rest)).requests =
        s.requests ++ [⟨"POST", "/api/" ++ endpoint,
          .form (if jsIncludes endpoint "resume" then "resume" else "cover_letter") f⟩]) := by
  refine ⟨?_, ?_, ?_, ?_, ?_⟩
  · cases files with
    | nil => cases uploadArea <;> rfl
    | cons f rest =>
      have hf : f.type ≠ "application/pdf" := h f (by simp)
      cases uploadArea <;> cases statusElement <;>
        simp [dropListener, hf, setDragover, showStatus]
  · cases files with
    | nil => cases uploadArea <;> rfl
    | cons f rest =>
      have hf : f.type ≠ "application/pdf" := h f (by simp)
      cases uploadArea <;> cases statusElement <;>
        simp [dropListener, hf, setDragover, showStatus]
  · cases files with
    | nil => cases uploadArea <;> rfl
    | cons f rest =>
      have hf : f.type ≠ "application/pdf" := h f (by simp)
      cases uploadArea <;> cases statusElement <;>
        simp [dropListener, hf, setDragover, showStatus]
  · intro hne
    cases files with
    | nil => exact absurd rfl hne
    | cons f rest =>
      have hf : f.type ≠ "application/pdf" := h f (by simp)
      have hhtml : statusHtml "❌ Please upload PDF files only" "error" =
        "\n        <div class=\"status-message status-error\">\n" ++
        "            <i class=\"fas fa-exclamation-circle\"></i>\n" ++
        "            ❌ Please upload PDF files only\n" ++
        "        </div>\n    " := by decide
      rw [← hhtml]
      cases uploadArea <;> cases statusElement <;>
        simp [dropListener, hf, setDragover, showStatus, statusOf]
  · intro f rest hf
    cases uploadArea <;> cases fileInput <;> cases statusElement <;>
      simp [dropListener, hf, setDragover, setFiles, handleFileUpload, showStatus, fetch]

/-- Witness of C5: a text file dropped on the resume zone of the loaded page. -/
theorem drop_non_pdf_witness :
    (dropListener (pageLoad exampleMarkup) .resumeUpload .resumeFile .resumeStatus
      "upload-resume" true [notesTxt]).requests = [] ∧
    (dropListener (pageLoad exampleMarkup) .resumeUpload .resumeFile .resumeStatus
      "upload-resume" true [notesTxt]).app = AppState.initial ∧
    (dropListener (pageLoad exampleMarkup) .resumeUpload .resumeFile .resumeStatus
      "upload-resume" true [notesTxt]).resumeStatus =
        "\n        <div class=\"status-message status-error\">\n" ++
        "            <i class=\"fas fa-exclamation-circle\"></i>\n" ++
        "            ❌ Please upload PDF files only\n" ++
        "        </div>\n    " :=
  have h := drop_non_pdf (pageLoad exampleMarkup) .resumeUpload .resumeFile .resumeStatus
    "upload-resume" true [notesTxt] (by decide)
  ⟨h.1, h.2.2.1, h.2.2.2.1 (by decide)⟩

/-! ## Job description, mode switch -/

@[simp] theorem showStatus_app (s : Page) (e : StatusElement) (msg ty : String) :
    (showStatus s e msg ty).app = s.app := by
  cases e <;> rfl

@[simp] theorem updateOverallStatus_app (s : Page) : (updateOverallStatus s).app = s.app := by
  unfold updateOverallStatus
  split
  · simp
  · split <;> simp

set_option maxRecDepth 100000 in
/-- C1: the page is made ready (resume accepted, job description accepted), then
the job description is cleared and the server accepts the empty text.  After the
call of `updateOverallStatus` that ends this run the job-description flag is
false and the overall status asks for a job description, yet the message input,
the send button and the analysis button are all enabled.  In general
`updateOverallStatus` never disables a control that is enabled. -/
theorem controls_enabled_after_clearing :
    (App.run (App.load exampleMarkup) readyTrace).state.app.jobDescriptionSet = true ∧
    (App.run (App.load exampleMarkup) clearedJobDescriptionTrace).state.pending = [] ∧
    (App.run (App.load exampleMarkup) clearedJobDescriptionTrace).state.app.resumeUploaded
      = true ∧
    (App.run (App.load exampleMarkup) clearedJobDescriptionTrace).state.app.jobDescriptionSet
      = false ∧
    (App.run (App.load exampleMarkup) clearedJobDescriptionTrace).state.overallStatus =
      statusHtml "⚠️ Almost ready! Please add job description" "warning" ∧
    (App.run (App.load exampleMarkup) clearedJobDescriptionTrace).state.messageInputDisabled
      = false ∧
    (App.run (App.load exampleMarkup) clearedJobDescriptionTrace).state.sendBtnDisabled
      = false ∧
    (App.run (App.load exampleMarkup) clearedJobDescriptionTrace).state.atsAnalysisBtnDisabled
      = false ∧
    (∀ s : Page,
      (s.messageInputDisabled = false → (updateOverallStatus s).messageInputDisabled = false) ∧
      (s.sendBtnDisabled = false → (updateOverallStatus s).sendBtnDisabled = false) ∧
      (s.atsAnalysisBtnDisabled = false →
        (updateOverallStatus s).atsAnalysisBtnDisabled = false)) := by
  refine ⟨by decide, by decide, by decide, by decide, by decide, by decide, by decide,
    by decide, ?_⟩
  intro s
  unfold updateOverallStatus
  refine ⟨?_, ?_, ?_⟩ <;> intro h <;> split <;> try split
  all_goals simp [showStatus, h]

/-- C3 fails as stated: "Engineer" is submitted, the server answers
`{success: false}`, the response is handled (nothing is left in flight), and
`jobDescriptionSet` is false although the trimmed text is not empty. -/
theorem refused_jobDescription_counterexample :
    (App.run (App.load exampleMarkup) refusedTrace).state.requests =
      [⟨"POST", "/api/job-description", .json "job_description" (some "Engineer")⟩] ∧
    (App.run (App.load exampleMarkup) refusedTrace).state.pending = [] ∧
    jsTrim "Engineer" ≠ "" ∧
    (App.run (App.load exampleMarkup) refusedTrace).state.app.jobDescriptionSet = false := by
  decide

/-- C3, amended: `handleJobDescriptionChange` posts the trimmed text, empty or not,
as `job_description`.  When the response is handled, a response with a truthy
`success` sets `jobDescriptionSet` to whether the submitted trimmed text is
non-empty; a response without it, and a failed request, leave `jobDescriptionSet`
as it was. -/
theorem jobDescriptionSet_after_response (s t : Page) (jobDesc : String) (o : Outcome) :
    (handleJobDescriptionChange s).requests = s.requests ++
      [⟨"POST", "/api/job-description",
        .json "job_description" (some (jsTrim s.jobDescriptionValue))⟩] ∧
    (handleJobDescriptionChange s).pending =
      s.pending ++ [.jobDescription (jsTrim s.jobDescriptionValue)] ∧
    (jobDescriptionResponse t jobDesc o).app.jobDescriptionSet =
      (match o with
       | .json data => if data.success then !(jobDesc == "") else t.app.jobDescriptionSet
       | _ => t.app.jobDescriptionSet) := by
  refine ⟨rfl, rfl, ?_⟩
  cases o with
  | json data =>
    cases hs : data.success <;> simp [jobDescriptionResponse, hs]
    exact length_pos_iff_ne_empty jobDesc
  | rejected m => simp [jobDescriptionResponse]
  | notJson m => simp [jobDescriptionResponse]
  | jsonNull m => simp [jobDescriptionResponse]

/-- C10 fails as stated: after one exchange the recruiter option is clicked.  When
`handleModeChange` has returned, with both of its requests still in flight, the
transcript still holds the two messages of the exchange; and when both requests
then fail it still does. -/
theorem modeSwitch_counterexample :
    (App.run (App.load exampleMarkup) modeSwitchTrace).state.pending =
      [.modeClearChat "HR Recruiter Mode - AI acts as candidate", .setMode] ∧
    (App.run (App.load exampleMarkup) modeSwitchTrace).state.chatMessages =
      [⟨"message message-user", "", "Hi"⟩,
       ⟨"message message-ai", "", "<strong>AI:</strong> Welcome"⟩] ∧
    (App.run (App.load exampleMarkup) failedModeSwitchTrace).state.pending = [] ∧
    (App.run (App.load exampleMarkup) failedModeSwitchTrace).state.chatMessages =
      [⟨"message message-user", "", "Hi"⟩,
       ⟨"message message-ai", "", "<strong>AI:</strong> Welcome"⟩] := by
  decide

set_option maxRecDepth 100000 in
/-- C10, amended: the synchronous part of `handleModeChange` leaves the transcript
as it was, and either issues nothing (the handler threw) or has the clear-chat and
set-mode requests both in flight as it returns.  The transcript is replaced by the
single greeting node, which reads "Mode switched to" followed by the mode text,
when the response to the clear-chat request arrives, and is left as it was when
that request is rejected; the set-mode request has no part in it.  In the run
where the recruiter option is clicked after one exchange, the greeting replaces
the two messages once the clear-chat request is answered. -/
theorem handleModeChange_transcript (s t : Page) (selectedMode : Option String)
    (text : String) (o : Outcome) :
    (handleModeChange s selectedMode).chatMessages = s.chatMessages ∧
    (((handleModeChange s selectedMode).pending = s.pending ∧
        (handleModeChange s selectedMode).requests = s.requests) ∨
      ((handleModeChange s selectedMode).pending =
          s.pending ++
            [.modeClearChat (if selectedMode = some "job_seeker"
                then "Job Seeker Mode - AI will interview you"
                else "HR Recruiter Mode - AI acts as candidate"),
             .setMode] ∧
        (handleModeChange s selectedMode).requests =
          s.requests ++
            [⟨"POST", "/api/clear-chat", .empty⟩,
             ⟨"POST", "/api/set-mode", .json "mode" selectedMode⟩])) ∧
    (complete t (.modeClearChat text) o).chatMessages =
      (match o with
       | .rejected _ => t.chatMessages
       | _ =>
         [⟨"message message-ai", "",
           "\n                    <strong>AI Assistant:</strong> Mode switched to " ++
             text ++ "! " ++
             (if t.app.resumeUploaded && t.app.jobDescriptionSet
               then "Let\x27s start the interview!"
               else "Please ensure resume and job description are uploaded.") ++
             "\n                "⟩]) ∧
    (complete t .setMode o).chatMessages = t.chatMessages ∧
    (App.run (App.load exampleMarkup) answeredModeSwitchTrace).state.chatMessages =
      [⟨"message message-ai", "",
        "\n                    <strong>AI Assistant:</strong> Mode switched to " ++
          "HR Recruiter Mode - AI acts as candidate! Let\x27s start the interview!" ++
          "\n                "⟩] := by
  refine ⟨?_, ?_, ?_, rfl, by decide⟩
  · unfold handleModeChange
    simp only
    split <;> rfl
  · unfold handleModeChange
    simp only
    split
    · exact Or.inl ⟨rfl, rfl⟩
    · refine Or.inr ⟨?_, ?_⟩ <;>
        simp only [fetch, modeText, List.append_assoc, List.singleton_append]
  · cases o <;> rfl

/-! ## Chat -/

set_option maxRecDepth 100000 in
/-- C7: the page is ready and "Hi" is sent.  While that request is in flight an
edited job description is accepted, and `updateOverallStatus` enables the input
and the send button again; "Hello?" is sent and its request is answered first.
When the callbacks of this second request have run, the input and the button are
enabled and the reply is appended, but a placeholder is still in the transcript:
`hideLoading` removed the first one.  On every page and outcome the callbacks do
enable the input and the button and append an AI entry at the end. -/
theorem placeholder_left_after_overlapping_sends :
    (App.run (App.load exampleMarkup) overlappingSendsTrace).state.pending = [.chat] ∧
    (App.run (App.load exampleMarkup) overlappingSendsTrace).state.messageInputDisabled
      = false ∧
    (App.run (App.load exampleMarkup) overlappingSendsTrace).state.sendBtnDisabled = false ∧
    jsTrim (App.run (App.load exampleMarkup) overlappingSendsTrace).state.messageInputValue
      = "Hello?" ∧
    (App.run (App.load exampleMarkup) (overlappingSendsTrace ++ secondSendTrace)).state.chatMessages
      = [⟨"message message-user", "", "Hi"⟩,
         ⟨"message message-user", "", "Hello?"⟩,
         ⟨"message message-ai loading", "loadingMessage",
           "<strong>AI:</strong> <i class=\"fas fa-spinner fa-spin\"></i> Thinking..."⟩,
         ⟨"message message-ai", "", "<strong>AI:</strong> Welcome"⟩] ∧
    (App.run (App.load exampleMarkup)
      (overlappingSendsTrace ++ secondSendTrace)).state.messageInputDisabled = false ∧
    (App.run (App.load exampleMarkup)
      (overlappingSendsTrace ++ secondSendTrace)).state.sendBtnDisabled = false ∧
    (∀ (t : Page) (o : Outcome),
      (chatResponse t o).messageInputDisabled = false ∧
      (chatResponse t o).sendBtnDisabled = false ∧
      ∃ content : String, (chatResponse t o).chatMessages.getLast? =
        some ⟨"message message-ai", "", "<strong>AI:</strong> " ++ content⟩) := by
  refine ⟨by decide, by decide, by decide, by decide, by decide, by decide, by decide, ?_⟩
  intro t o
  cases o with
  | json data =>
    by_cases hc : truthy data.response = true
    · exact ⟨rfl, rfl, interpolate data.response, by
        simp [chatResponse, hc, addMessage, messageNode]⟩
    · exact ⟨rfl, rfl, "❌ " ++ orElse data.error "Unknown error occurred", by
        simp [chatResponse, hc, addMessage, messageNode]⟩
  | jsonNull m =>
    exact ⟨rfl, rfl, "❌ Error: " ++ m, by simp [chatResponse, chatCatch, addMessage, messageNode]⟩
  | rejected m =>
    exact ⟨rfl, rfl, "❌ Error: " ++ m, by simp [chatResponse, chatCatch, addMessage, messageNode]⟩
  | notJson m =>
    exact ⟨rfl, rfl, "❌ Error: " ++ m, by simp [chatResponse, chatCatch, addMessage, messageNode]⟩

/-! ## Debounce -/

theorem applyPres_cons {α σ : Type} (c : Call α σ) (cs : List (Call α σ)) (x : σ) :
    applyPres (c :: cs) x = applyPres cs (c.pre x) := rfl

/-- While calls keep coming close together the timer is re-armed and `func` is not run. -/
theorem foldl_call_closeCalls {α σ : Type} (func : α → σ → σ) (wait : Nat)
    (cs : List (Call α σ)) :
    ∀ (c : Call α σ) (w : World α σ),
      w.debounced = { wait := wait, timeout := some (c.time + wait, c.args) } →
      closeCalls wait (c :: cs) →
      (cs.foldl (World.call func) w).debounced =
        { wait := wait,
          timeout := some (((c :: cs).getLast (List.cons_ne_nil c cs)).time + wait,
            ((c :: cs).getLast (List.cons_ne_nil c cs)).args) } ∧
      (cs.foldl (World.call func) w).invoked = w.invoked ∧
      (cs.foldl (World.call func) w).state = applyPres cs w.state := by
  induction cs with
  | nil =>
    intro c w hw _
    exact ⟨hw, rfl, rfl⟩
  | cons d rest ih =>
    intro c w hw hclose
    obtain ⟨_, hlt, hrest⟩ := hclose
    have hadv : w.advance func d.time = w := by
      unfold World.advance
      rw [hw]
      simp only
      rw [if_neg (by omega)]
    have hcall : World.call func w d =
        { w with state := d.pre w.state,
                 debounced := { wait := wait, timeout := some (d.time + wait, d.args) } } := by
      unfold World.call
      simp only [hadv, Debounced.executedFunction, hw]
    have h := ih d (World.call func w d) (by rw [hcall]) hrest
    rw [List.foldl_cons, List.getLast_cons (List.cons_ne_nil d rest)]
    refine ⟨h.1, ?_, ?_⟩
    · rw [h.2.1, hcall]
    · rw [h.2.2, hcall]
      rfl

/-- C4: the function returned by `debounce(func, wait)` is called one or more
times, each call no earlier than the one before and less than `wait` after it.
Up to any time before `wait` has passed since the last call `func` has not been
invoked; from that time on it has been invoked exactly once, at `wait` after the
last call, with the arguments of the last call, on the state as the edits left it. -/
theorem debounce_invokes_once {α σ : Type} (func : α → σ → σ) (wait : Nat) (x : σ)
    (c : Call α σ) (cs : List (Call α σ)) (stop : Nat)
    (hclose : closeCalls wait (c :: cs)) :
    (stop < ((c :: cs).getLast (List.cons_ne_nil c cs)).time + wait →
      (World.run func { debounced := debounce wait, state := x, invoked := [] }
        (c :: cs) stop).invoked = [] ∧
      (World.run func { debounced := debounce wait, state := x, invoked := [] }
        (c :: cs) stop).state = applyPres (c :: cs) x) ∧
    (((c :: cs).getLast (List.cons_ne_nil c cs)).time + wait ≤ stop →
      (World.run func { debounced := debounce wait, state := x, invoked := [] }
        (c :: cs) stop).invoked =
        [(((c :: cs).getLast (List.cons_ne_nil c cs)).time + wait,
          ((c :: cs).getLast (List.cons_ne_nil c cs)).args)] ∧
      (World.run func { debounced := debounce wait, state := x, invoked := [] }
        (c :: cs) stop).state =
        func ((c :: cs).getLast (List.cons_ne_nil c cs)).args (applyPres (c :: cs) x)) := by
  have hfirst : World.call func { debounced := debounce wait, state := x, invoked := [] } c =
      { debounced := { wait := wait, timeout := some (c.time + wait, c.args) },
        state := c.pre x, invoked := [] } := rfl
  obtain ⟨hd, hi, hs⟩ := foldl_call_closeCalls func wait cs c
    { debounced := { wait := wait, timeout := some (c.time + wait, c.args) },
      state := c.pre x, invoked := [] } rfl hclose
  simp only at hi hs
  unfold World.run
  rw [List.foldl_cons, hfirst]
  unfold World.advance
  rw [hd]
  simp only
  constructor
  · intro hlt
    rw [if_neg (by omega)]
    exact ⟨hi, by rw [hs, applyPres_cons]⟩
  · intro hle
    rw [if_pos hle]
    simp only [hi, hs, List.nil_append, applyPres_cons, and_self]

set_option maxRecDepth 100000 in
/-- Witness of C4: "a", "ab", "abc" are typed into the job description at 0, 400
and 900 ms.  At 1899 ms nothing has been sent; from 1900 ms on
`handleJobDescriptionChange` has run once, at 1900 ms, and the one request issued
is the POST to `/api/job-description` carrying "abc". -/
theorem debounce_invokes_once_witness :
    (World.run jobDescriptionListener (App.load exampleMarkup) typingCalls 1899).invoked = [] ∧
    (World.run jobDescriptionListener (App.load exampleMarkup) typingCalls 1899).state.requests
      = [] ∧
    (World.run jobDescriptionListener (App.load exampleMarkup) typingCalls 5000).invoked
      = [(1900, ())] ∧
    (World.run jobDescriptionListener (App.load exampleMarkup) typingCalls 5000).state.requests
      = [⟨"POST", "/api/job-description", .json "job_description" (some "abc")⟩] :=
  have hclose : closeCalls 1000 typingCalls :=
    ⟨by decide, by decide, by decide, by decide, trivial⟩
  have early := (debounce_invokes_once jobDescriptionListener 1000 (pageLoad exampleMarkup)
    { time := 0, pre := fun s => handle s (.jobDescriptionInput "a"), args := () }
    [ { time := 400, pre := fun s => handle s (.jobDescriptionInput "ab"), args := () },
      { time := 900, pre := fun s => handle s (.jobDescriptionInput "abc"), args := () } ]
    1899 hclose).1 (by decide)
  have late := (debounce_invokes_once jobDescriptionListener 1000 (pageLoad exampleMarkup)
    { time := 0, pre := fun s => handle s (.jobDescriptionInput "a"), args := () }
    [ { time := 400, pre := fun s => handle s (.jobDescriptionInput "ab"), args := () },
      { time := 900, pre := fun s => handle s (.jobDescriptionInput "abc"), args := () } ]
    5000 hclose).2 (by decide)
  ⟨early.1, by decide, late.1, by decide⟩

/-! ## The mode invariant -/

/-- A handler that touches neither the mode nor the mode options keeps `ModeInv`. -/
theorem ModeInv_of_same (P : Option String → Prop) (s t : Page) (hs : ModeInv P s)
    (hmode : t.app.mode = s.app.mode) (hopts : t.modeOptions = s.modeOptions) :
    ModeInv P t := by
  unfold ModeInv
  rw [hmode, hopts]
  exact hs

@[simp] theorem showStatus_modeOptions (s : Page) (e : StatusElement) (msg ty : String) :
    (showStatus s e msg ty).modeOptions = s.modeOptions := by
  cases e <;> rfl

@[simp] theorem updateOverallStatus_modeOptions (s : Page) :
    (updateOverallStatus s).modeOptions = s.modeOptions := by
  unfold updateOverallStatus
  split
  · simp
  · split <;> simp

@[simp] theorem setDragover_app (s : Page) (u : UploadArea) (b : Bool) :
    (setDragover s u b).app = s.app := by
  cases u <;> rfl

@[simp] theorem setDragover_modeOptions (s : Page) (u : UploadArea) (b : Bool) :
    (setDragover s u b).modeOptions = s.modeOptions := by
  cases u <;> rfl

@[simp] theorem setFiles_app (s : Page) (i : FileInput) (fs : List File) :
    (setFiles s i fs).app = s.app := by
  cases i <;> rfl

@[simp] theorem setFiles_modeOptions (s : Page) (i : FileInput) (fs : List File) :
    (setFiles s i fs).modeOptions = s.modeOptions := by
  cases i <;> rfl

@[simp] theorem fetch_app (s : Page) (r : Request) (k : Pending) : (fetch s r k).app = s.app :=
  rfl

@[simp] theorem fetch_modeOptions (s : Page) (r : Request) (k : Pending) :
    (fetch s r k).modeOptions = s.modeOptions := rfl

theorem handleFileUpload_same (s : Page) (f : File) (e : StatusElement) (ep : String)
    (b : Bool) :
    (handleFileUpload s f e ep b).app.mode = s.app.mode ∧
    (handleFileUpload s f e ep b).modeOptions = s.modeOptions := by
  simp [handleFileUpload]

theorem dropListener_same (s : Page) (u : UploadArea) (i : FileInput) (e : StatusElement)
    (ep : String) (b : Bool) (fs : List File) :
    (dropListener s u i e ep b fs).app.mode = s.app.mode ∧
    (dropListener s u i e ep b fs).modeOptions = s.modeOptions := by
  unfold dropListener
  cases fs with
  | nil => simp
  | cons f rest =>
    simp only
    split <;> simp [handleFileUpload]

theorem changeListener_same (s : Page) (i : FileInput) (e : StatusElement)
    (ep : String) (b : Bool) (fs : List File) :
    (changeListener s i e ep b fs).app.mode = s.app.mode ∧
    (changeListener s i e ep b fs).modeOptions = s.modeOptions := by
  unfold changeListener
  cases fs with
  | nil => simp
  | cons f rest => simp [handleFileUpload]

theorem sendMessage_same (s : Page) :
    (sendMessage s).app.mode = s.app.mode ∧ (sendMessage s).modeOptions = s.modeOptions := by
  unfold sendMessage
  simp only
  split
  · exact ⟨rfl, rfl⟩
  · exact ⟨rfl, rfl⟩

theorem uploadResponse_same (s : Page) (e : StatusElement) (ep : String) (o : Outcome) :
    (uploadResponse s e ep o).app.mode = s.app.mode ∧
    (uploadResponse s e ep o).modeOptions = s.modeOptions := by
  cases o with
  | json data =>
    unfold uploadResponse
    simp only
    split
    · split <;> simp
    · simp
  | rejected m => simp [uploadResponse]
  | notJson m => simp [uploadResponse]
  | jsonNull m => simp [uploadResponse]

theorem jobDescriptionResponse_same (s : Page) (jobDesc : String) (o : Outcome) :
    (jobDescriptionResponse s jobDesc o).app.mode = s.app.mode ∧
    (jobDescriptionResponse s jobDesc o).modeOptions = s.modeOptions := by
  cases o with
  | json data =>
    unfold jobDescriptionResponse
    simp only
    split <;> simp
  | rejected m => simp [jobDescriptionResponse]
  | notJson m => simp [jobDescriptionResponse]
  | jsonNull m => simp [jobDescriptionResponse]

theorem chatResponse_same (s : Page) (o : Outcome) :
    (chatResponse s o).app.mode = s.app.mode ∧
    (chatResponse s o).modeOptions = s.modeOptions := by
  cases o with
  | json data =>
    unfold chatResponse
    simp only
    split <;> exact ⟨rfl, rfl⟩
  | rejected m => exact ⟨rfl, rfl⟩
  | notJson m => exact ⟨rfl, rfl⟩
  | jsonNull m => exact ⟨rfl, rfl⟩

theorem atsResponse_same (s : Page) (o : Outcome) :
    (atsResponse s o).app.mode = s.app.mode ∧
    (atsResponse s o).modeOptions = s.modeOptions := by
  cases o with
  | json data =>
    by_cases hc : truthy data.error = true
    · simp [atsResponse, hc, alert]
    · simp [atsResponse, hc, displayATSResults]
  | rejected m => exact ⟨rfl, rfl⟩
  | notJson m => exact ⟨rfl, rfl⟩
  | jsonNull m => exact ⟨rfl, rfl⟩

theorem complete_same (s : Page) (k : Pending) (o : Outcome) :
    (complete s k o).app.mode = s.app.mode ∧ (complete s k o).modeOptions = s.modeOptions := by
  cases k with
  | modeClearChat text => cases o <;> exact ⟨rfl, rfl⟩
  | setMode => exact ⟨rfl, rfl⟩
  | upload e ep => exact uploadResponse_same s e ep o
  | jobDescription jobDesc => exact jobDescriptionResponse_same s jobDesc o
  | chat => exact chatResponse_same s o
  | atsAnalysis => exact atsResponse_same s o
  | clearChat => cases o <;> exact ⟨rfl, rfl⟩

theorem respond_same (s : Page) (i : Nat) (o : Outcome) :
    (respond s i o).app.mode = s.app.mode ∧ (respond s i o).modeOptions = s.modeOptions := by
  unfold respond
  split
  · exact complete_same _ _ o
  · exact ⟨rfl, rfl⟩

theorem modify_dataMode (g : ModeOption → ModeOption) (hg : ∀ o, (g o).dataMode = o.dataMode)
    (opts : List ModeOption) (P : Option String → Prop) (h : ∀ o ∈ opts, P o.dataMode) :
    ∀ i : Nat, ∀ o ∈ opts.modify g i, P o.dataMode := by
  induction opts with
  | nil => intro i o ho; simp at ho
  | cons a rest ih =>
    intro i o ho
    cases i with
    | zero =>
      rw [List.modify_zero_cons] at ho
      rcases List.mem_cons.mp ho with h1 | h1
      · rw [h1, hg]; exact h a (by simp)
      · exact h o (by simp [h1])
    | succ j =>
      rw [List.modify_succ_cons] at ho
      rcases List.mem_cons.mp ho with h1 | h1
      · rw [h1]; exact h a (by simp)
      · exact ih (fun o ho => h o (by simp [ho])) j o h1

theorem handleModeChange_ModeInv (P : Option String → Prop) (s : Page)
    (selectedMode : Option String) (hs : ModeInv P s) (hsel : P selectedMode) :
    ModeInv P (handleModeChange s selectedMode) := by
  have hmap : ∀ o ∈ s.modeOptions.map
      (fun o => { o with active := false, checked := false }), P o.dataMode := by
    intro o ho
    obtain ⟨a, ha, rfl⟩ := List.mem_map.mp ho
    exact hs.2 a ha
  unfold handleModeChange
  simp only
  split
  · exact ⟨hsel, hmap⟩
  · rename_i i _
    refine ⟨hsel, ?_⟩
    show ∀ o ∈ List.modify (fun o => { o with active := true, checked := true }) i
      (s.modeOptions.map (fun o => { o with active := false, checked := false })),
      P o.dataMode
    exact modify_dataMode (fun o => { o with active := true, checked := true })
      (fun _ => rfl) _ P hmap i

theorem handle_ModeInv (P : Option String → Prop) (s : Page) (e : Event)
    (hs : ModeInv P s) : ModeInv P (handle s e) := by
  cases e with
  | modeOptionClick i =>
    unfold handle
    simp only
    split
    · rename_i option hopt
      exact handleModeChange_ModeInv P s _ hs (hs.2 option (List.getElem?_mem hopt))
    · exact hs
  | dragover u => cases u <;> exact hs
  | dragleave u => cases u <;> exact hs
  | drop u fs =>
    cases u
    · exact ModeInv_of_same P s _ hs (dropListener_same ..).1 (dropListener_same ..).2
    · exact ModeInv_of_same P s _ hs (dropListener_same ..).1 (dropListener_same ..).2
  | fileChange i fs =>
    cases i
    · exact ModeInv_of_same P s _ hs (changeListener_same ..).1 (changeListener_same ..).2
    · exact ModeInv_of_same P s _ hs (changeListener_same ..).1 (changeListener_same ..).2
  | jobDescriptionInput v => exact hs
  | messageInput v =>
    unfold handle
    simp only
    split <;> exact hs
  | sendBtnClick =>
    unfold handle
    simp only
    split
    · exact hs
    · exact ModeInv_of_same P s _ hs (sendMessage_same s).1 (sendMessage_same s).2
  | messageKeypress key shiftKey =>
    unfold handle
    simp only
    split
    · exact hs
    · split
      · exact ModeInv_of_same P s _ hs (sendMessage_same s).1 (sendMessage_same s).2
      · exact hs
  | atsAnalysisBtnClick =>
    unfold handle
    simp only
    split <;> exact hs
  | clearChatBtnClick => exact hs
  | closeModalClick => exact hs
  | windowClick onModal =>
    unfold handle
    simp only
    split <;> exact hs
  | response i o => exact ModeInv_of_same P s _ hs (respond_same s i o).1 (respond_same s i o).2

theorem advance_ModeInv (P : Option String → Prop) (w : App) (now : Nat)
    (hw : ModeInv P w.state) : ModeInv P (w.advance jobDescriptionListener now).state := by
  unfold World.advance
  split
  · split
    · exact hw
    · exact hw
  · exact hw

theorem step_ModeInv (P : Option String → Prop) (w : App) (te : Nat × Event)
    (hw : ModeInv P w.state) : ModeInv P (App.step w te).state := by
  unfold App.step
  split
  · exact handle_ModeInv P _ _ (advance_ModeInv P w te.1 hw)
  · exact handle_ModeInv P _ _ (advance_ModeInv P w te.1 hw)

theorem run_ModeInv (P : Option String → Prop) (es : List (Nat × Event)) :
    ∀ w : App, ModeInv P w.state → ModeInv P (App.run w es).state := by
  induction es with
  | nil => intro w hw; exact hw
  | cons te rest ih =>
    intro w hw
    exact ih (App.step w te) (step_ModeInv P w te hw)

/-- C9 fails as stated: in a document with a mode option that has no `data-mode`
attribute and one whose `data-mode` is `admin`, a click on the first leaves
`AppState.mode` undefined and a click on the second leaves it `admin`; neither is
one of the two variants. -/
theorem stray_mode_counterexample :
    (App.run (App.load strayOptionsMarkup) [(0, .modeOptionClick 2)]).state.app.mode = none ∧
    (App.run (App.load strayOptionsMarkup) [(0, .modeOptionClick 3)]).state.app.mode
      = some "admin" ∧
    ¬ validMode none ∧ ¬ validMode (some "admin") := by
  refine ⟨by decide, by decide, ?_, ?_⟩ <;> simp [validMode]

/-- C9, amended: `handleModeChange` stores the selected mode as it is given.  In
every state reached from the loaded page by any sequence of timed events
`AppState.mode` is `job_seeker`, as at load, or the `data-mode` of a mode option
of the document (undefined for an option without one); so when the `data-mode` of
every mode option is `job_seeker` or `hr_recruiter`, `AppState.mode` is always one
of these two. -/
theorem mode_invariant (m : Markup) (es : List (Nat × Event)) :
    servedMode m (App.run (App.load m) es).state.app.mode ∧
    ((∀ o ∈ m.modeOptions, validMode o.dataMode) →
      validMode (App.run (App.load m) es).state.app.mode) ∧
    (∀ (s : Page) (selectedMode : Option String),
      (handleModeChange s selectedMode).app.mode = selectedMode) := by
  refine ⟨?_, ?_, ?_⟩
  · exact (run_ModeInv (servedMode m) es (App.load m)
      ⟨Or.inl rfl, fun o ho => Or.inr ⟨o, ho, rfl⟩⟩).1
  · intro hm
    exact (run_ModeInv validMode es (App.load m) ⟨Or.inl rfl, hm⟩).1
  · intro s selectedMode
    unfold handleModeChange
    simp only
    split <;> rfl

/-- Witness of C9, amended: the document with one option per mode, after events of
every kind with clicks on both options. -/
theorem mode_invariant_witness :
    validMode (App.run (App.load exampleMarkup) busyTrace).state.app.mode :=
  (mode_invariant exampleMarkup busyTrace).2.1 (by simp [exampleMarkup, validMode])

end RecruiterAssistant
